import Mathlib

/-!
Verification of the multi-agent customer-service core against its source.

The development shallowly embeds, in execution order:
  * string helpers modelling Python substring tests (`pat in s`) and
    `str.join`,
  * the tool layer of `mcp_server/server.py` (`get_customer`,
    `list_customers`, `update_customer`, `create_ticket`,
    `get_customer_history`) over a pure `Store`,
  * the conversation log of `src/agents/base.py`,
  * the delegates of `src/agents/customer_data_agent.py` and
    `src/agents/support_agent.py`,
  * the orchestrator of `src/agents/router_agent.py` (`handle` and each
    scenario),
  * the transport helpers of `src/a2a/client.py` (`send_message`,
    `wait_until_ready`).

All state threading is explicit: a scenario takes the store and the event
list and returns the response together with the updated store and events.
-/

namespace CS

/-- Source `isPrefixOfCL p s` : `p` is a prefix of `s` (over char lists). -/
def isPrefixOfCL : List Char → List Char → Bool
  | [], _ => true
  | _ :: _, [] => false
  | p :: ps, c :: cs => p == c && isPrefixOfCL ps cs

/-- Source `containsSub p s` : `p` occurs as a contiguous run inside `s`
(over char lists); models Python `p in s` for strings. -/
def containsSub (p : List Char) : List Char → Bool
  | [] => isPrefixOfCL p []
  | c :: cs => isPrefixOfCL p (c :: cs) || containsSub p cs

/-- Python `pat in s` on strings. -/
def inStr (pat s : String) : Bool :=
  containsSub pat.data s.data

/-- Python `s.lower()` (per-character lowercasing). -/
def pyLower (s : String) : String :=
  ⟨s.data.map Char.toLower⟩

/-- Python `sep.join(xs)`. -/
def pyJoin (sep : String) : List String → String
  | [] => ""
  | [x] => x
  | x :: y :: xs => x ++ sep ++ pyJoin sep (y :: xs)

/-! ## Records and tool results (`mcp_server/server.py`) -/

/-- A customer row: columns selected by the tool queries
(`id, name, email, phone, status, created_at, updated_at`). -/
structure Customer where
  id : Int
  name : String
  email : String
  phone : String
  status : String
  created_at : String
  updated_at : String
deriving DecidableEq, Repr

/-- A ticket row (`id, customer_id, issue, status, priority, created_at`). -/
structure Ticket where
  id : Int
  customer_id : Int
  issue : String
  status : String
  priority : String
  created_at : String
deriving DecidableEq, Repr

/-- Source `ToolResult` of `mcp_server/server.py`: `result` or an `error` string. -/
structure ToolResult (α : Type) where
  result : Option α := none
  error : Option String := none
deriving DecidableEq, Repr

/-- The persistent store behind the tools.  `now` models the value
`CURRENT_TIMESTAMP` yields during this call; `nextTicketId` models
`last_insert_rowid()` of the autoincremented tickets table. -/
structure Store where
  customers : List Customer
  tickets : List Ticket
  nextTicketId : Int
  now : String
deriving DecidableEq, Repr

/-- Python repr of a customer row dict (keys in column order). -/
def customerRepr (c : Customer) : String :=
  "\x7b\x27id\x27: " ++ toString c.id ++
  ", \x27name\x27: \x27" ++ c.name ++
  "\x27, \x27email\x27: \x27" ++ c.email ++
  "\x27, \x27phone\x27: \x27" ++ c.phone ++
  "\x27, \x27status\x27: \x27" ++ c.status ++
  "\x27, \x27created_at\x27: \x27" ++ c.created_at ++
  "\x27, \x27updated_at\x27: \x27" ++ c.updated_at ++ "\x27\x7d"

/-- Python repr of a ticket row dict (keys in column order). -/
def ticketRepr (t : Ticket) : String :=
  "\x7b\x27id\x27: " ++ toString t.id ++
  ", \x27customer_id\x27: " ++ toString t.customer_id ++
  ", \x27issue\x27: \x27" ++ t.issue ++
  "\x27, \x27status\x27: \x27" ++ t.status ++
  "\x27, \x27priority\x27: \x27" ++ t.priority ++
  "\x27, \x27created_at\x27: \x27" ++ t.created_at ++ "\x27\x7d"

/-- Python repr of a list of ticket dicts. -/
def ticketListRepr (l : List Ticket) : String :=
  "[" ++ pyJoin (", ") (l.map ticketRepr) ++ "]"

/-- Python str of an optional ticket dict (`None` when absent). -/
def optTicketStr : Option Ticket → String
  | none => "None"
  | some t => ticketRepr t

namespace MCP

/-- Source `_validate_customer_id`: positive integer. -/
def validCustomerId (cid : Int) : Bool := 0 < cid

/-- Source `ALLOWED_CUSTOMER_FIELDS`. -/
def allowedCustomerFields : List String := ["name", "email", "phone", "status"]

/-- Source `ALLOWED_CUSTOMER_STATUS`. -/
def allowedCustomerStatus : List String := ["active", "disabled"]

/-- Source `ALLOWED_TICKET_PRIORITY`. -/
def allowedTicketPriority : List String := ["low", "medium", "high"]

/-- Source `get_customer`: validate the id, look the row up, error when absent. -/
def get_customer (st : Store) (cid : Int) : ToolResult Customer :=
  if !validCustomerId cid then
    ⟨none, some ("customer_id must be a positive integer")⟩
  else
    match st.customers.find? (fun c => c.id == cid) with
    | none => ⟨none, some (("Customer ") ++ toString cid ++ (" not found"))⟩
    | some c => ⟨some c, none⟩

/-- Source `list_customers`: validate status and limit, filter, apply `LIMIT`. -/
def list_customers (st : Store) (status : Option String) (limit : Int) :
    ToolResult (List Customer) :=
  match status with
  | some s =>
    if !(allowedCustomerStatus.contains s) then
      ⟨none, some ("status must be one of [\x27active\x27, \x27disabled\x27]")⟩
    else if limit ≤ 0 then ⟨none, some ("limit must be a positive integer")⟩
    else if 100 < limit then ⟨none, some ("limit too high; must be <= 100")⟩
    else ⟨some ((st.customers.filter (fun c => c.status == s)).take limit.toNat), none⟩
  | none =>
    if limit ≤ 0 then ⟨none, some ("limit must be a positive integer")⟩
    else if 100 < limit then ⟨none, some ("limit too high; must be <= 100")⟩
    else ⟨some (st.customers.take limit.toNat), none⟩

/-- Apply one `SET key = value` to a customer row. -/
def setField (c : Customer) : String × String → Customer
  | (k, v) =>
    if k == "name" then { c with name := v }
    else if k == "email" then { c with email := v }
    else if k == "phone" then { c with phone := v }
    else if k == "status" then { c with status := v }
    else c

/-- The `UPDATE ... WHERE id = ?` part of `update_customer`: error when no
row matches (`cur.rowcount == 0`), otherwise set the fields plus
`updated_at = CURRENT_TIMESTAMP` and return the row via `get_customer`. -/
def update_customerApply (st : Store) (cid : Int) (updates : List (String × String)) :
    ToolResult Customer × Store :=
  if !(st.customers.any (fun c => c.id == cid)) then
    (⟨none, some (("Customer ") ++ toString cid ++ (" not found"))⟩, st)
  else
    let st' := { st with
      customers := st.customers.map (fun c =>
        if c.id == cid then { updates.foldl setField c with updated_at := st.now }
        else c) }
    (get_customer st' cid, st')

/-- Source `update_customer`: filter to allowed fields, validate, update, then
return the updated row. -/
def update_customer (st : Store) (cid : Int) (data : List (String × String)) :
    ToolResult Customer × Store :=
  if !validCustomerId cid then
    (⟨none, some ("customer_id must be a positive integer")⟩, st)
  else
    let updates := data.filter (fun kv => allowedCustomerFields.contains kv.1)
    if updates.isEmpty then (⟨none, some ("No valid fields to update")⟩, st)
    else
      match updates.lookup ("status") with
      | some s =>
        if !(allowedCustomerStatus.contains s) then
          (⟨none, some ("status must be one of [\x27active\x27, \x27disabled\x27]")⟩, st)
        else update_customerApply st cid updates
      | none => update_customerApply st cid updates

/-- Source `create_ticket`: validate, check the customer exists, insert the row
with status `open` and `created_at = CURRENT_TIMESTAMP`, return it. -/
def create_ticket (st : Store) (cid : Int) (issue : String) (priority : String) :
    ToolResult Ticket × Store :=
  if !validCustomerId cid then
    (⟨none, some ("customer_id must be a positive integer")⟩, st)
  else if issue.trim == "" then (⟨none, some ("issue is required")⟩, st)
  else if !(allowedTicketPriority.contains priority) then
    (⟨none, some ("priority must be one of [\x27high\x27, \x27low\x27, \x27medium\x27]")⟩, st)
  else if !(st.customers.any (fun c => c.id == cid)) then
    (⟨none, some (("Customer ") ++ toString cid ++ (" not found"))⟩, st)
  else
    let t : Ticket := ⟨st.nextTicketId, cid, issue, "open", priority, st.now⟩
    (⟨some t, none⟩,
      { st with tickets := st.tickets ++ [t], nextTicketId := st.nextTicketId + 1 })

/-- Stable insertion step for `ORDER BY created_at DESC`. -/
def insertDesc (t : Ticket) : List Ticket → List Ticket
  | [] => [t]
  | u :: us =>
    if u.created_at ≤ t.created_at then t :: u :: us else u :: insertDesc t us

/-- Source `ORDER BY created_at DESC` (descending string comparison). -/
def orderByCreatedAtDesc : List Ticket → List Ticket
  | [] => []
  | t :: ts => insertDesc t (orderByCreatedAtDesc ts)

/-- Source `get_customer_history`: validate the id, select the customer's tickets
ordered by `created_at` descending. -/
def get_customer_history (st : Store) (cid : Int) : ToolResult (List Ticket) :=
  if !validCustomerId cid then
    ⟨none, some ("customer_id must be a positive integer")⟩
  else
    ⟨some (orderByCreatedAtDesc (st.tickets.filter (fun t => t.customer_id == cid))), none⟩

end MCP

/-! ## Conversation log (`src/agents/base.py`) -/

/-- Values appearing in event argument mappings (the shapes this program
actually records: ints, strings, `None`, int lists, flat string dicts). -/
inductive ArgVal where
  | anone
  | aint (n : Int)
  | astr (s : String)
  | aintList (l : List Int)
  | adict (l : List (String × String))
deriving DecidableEq, Repr

/-- Python repr of an argument value. -/
def argValRepr : ArgVal → String
  | .anone => "None"
  | .aint n => toString n
  | .astr s => "\x27" ++ s ++ "\x27"
  | .aintList l => "[" ++ pyJoin (", ") (l.map toString) ++ "]"
  | .adict l =>
    "\x7b" ++
      pyJoin (", ") (l.map fun kv => "\x27" ++ kv.1 ++ "\x27: \x27" ++ kv.2 ++ "\x27") ++
      "\x7d"

/-- Python repr of an argument dict. -/
def argsRepr (args : List (String × ArgVal)) : String :=
  "\x7b" ++
    pyJoin (", ") (args.map fun kv => "\x27" ++ kv.1 ++ "\x27: " ++ argValRepr kv.2) ++
    "\x7d"

/-- One recorded inter-agent hop. -/
structure A2AEvent where
  sender : String
  receiver : String
  action : String
  args : List (String × ArgVal)
deriving DecidableEq, Repr

/-- Source `A2AEvent.format`. -/
def A2AEvent.format (e : A2AEvent) : String :=
  "[A2A] from=" ++ e.sender ++ " to=" ++ e.receiver ++ " action=" ++ e.action ++
    " args=" ++ argsRepr e.args

/-- Source `ConversationLog.dump`: newline-joined formatted events. -/
def dumpLog (events : List A2AEvent) : String :=
  pyJoin ("\n") (events.map A2AEvent.format)

/-- Python truthiness of an optional error string. -/
def optStrTruthy : Option String → Bool
  | none => false
  | some s => !(s == "")

/-! ## Data delegate (`src/agents/customer_data_agent.py`) -/

namespace DataAgent

/-- Source `self.name` of the data agent. -/
def agentName : String := "CustomerData"

/-- Source `fetch_customer`: record the hop, call the `get_customer` tool. -/
def fetch_customer (st : Store) (log : List A2AEvent) (sender : String) (cid : Int) :
    ToolResult Customer × List A2AEvent :=
  (MCP.get_customer st cid,
    log ++ [⟨sender, agentName, "get_customer", [(("customer_id"), .aint cid)]⟩])

/-- Argument rendering of an optional status. -/
def statusArg : Option String → ArgVal
  | none => .anone
  | some s => .astr s

/-- Source `list_customers`: record the hop, call the tool. -/
def list_customers (st : Store) (log : List A2AEvent) (sender : String)
    (status : Option String) (limit : Int) :
    ToolResult (List Customer) × List A2AEvent :=
  (MCP.list_customers st status limit,
    log ++ [⟨sender, agentName, "list_customers",
      [(("status"), statusArg status), (("limit"), .aint limit)]⟩])

/-- Source `update_customer`: record the hop, call the tool (store mutates). -/
def update_customer (st : Store) (log : List A2AEvent) (sender : String)
    (cid : Int) (data : List (String × String)) :
    ToolResult Customer × Store × List A2AEvent :=
  let log' := log ++ [⟨sender, agentName, "update_customer",
    [(("customer_id"), .aint cid), (("data"), .adict data)]⟩]
  let r := MCP.update_customer st cid data
  (r.1, r.2, log')

/-- Source `create_ticket`: record the hop, call the tool (store mutates). -/
def create_ticket (st : Store) (log : List A2AEvent) (sender : String)
    (cid : Int) (issue : String) (priority : String) :
    ToolResult Ticket × Store × List A2AEvent :=
  let log' := log ++ [⟨sender, agentName, "create_ticket",
    [(("customer_id"), .aint cid), (("issue"), .astr issue), (("priority"), .astr priority)]⟩]
  let r := MCP.create_ticket st cid issue priority
  (r.1, r.2, log')

/-- Source `history`: record the hop, call the `get_customer_history` tool. -/
def history (st : Store) (log : List A2AEvent) (sender : String) (cid : Int) :
    ToolResult (List Ticket) × List A2AEvent :=
  (MCP.get_customer_history st cid,
    log ++ [⟨sender, agentName, "get_customer_history", [(("customer_id"), .aint cid)]⟩])

/-- Source `high_priority_tickets`: per id, fetch history; when the result is a
non-empty list, keep the entries whose priority is `high`; concatenate. -/
def high_priority_tickets (st : Store) (log : List A2AEvent) :
    List Int → List Ticket × List A2AEvent
  | [] => ([], log)
  | cid :: rest =>
    let h := history st log ("Router") cid
    let picked := match h.1.result with
      | some l => if l.isEmpty then [] else l.filter (fun t => t.priority == "high")
      | none => []
    let more := high_priority_tickets st h.2 rest
    (picked ++ more.1, more.2)

end DataAgent

/-! ## Support delegate (`src/agents/support_agent.py`) -/

namespace Support

/-- Source `self.name` of the support agent. -/
def agentName : String := "Support"

/-- The `needs_context and customer` branch of `handle_support`: record a
`request_context` hop, fetch that customer's history through the data
delegate, render the context note. -/
def handle_supportContext (st : Store) (log : List A2AEvent) (c : Customer) :
    String × List A2AEvent :=
  let log1 := log ++ [⟨agentName, ("CustomerData"), ("request_context"),
    [(("customer_id"), .aint c.id)]⟩]
  let h := DataAgent.history st log1 agentName c.id
  (match h.1.result with
    | some l =>
      if l.isEmpty then " No prior tickets."
      else (" Context: ") ++ ticketListRepr l
    | none => " No prior tickets.", h.2)

/-- Source `handle_support`: optionally fetch context, then compose the reply. -/
def handle_support (st : Store) (log : List A2AEvent) (customer : Option Customer)
    (issue : String) (urgent : Bool) (needs_context : Bool) :
    String × List A2AEvent :=
  let ctx : String × List A2AEvent :=
    if needs_context then
      match customer with
      | some c => handle_supportContext st log c
      | none => ("", log)
    else ("", log)
  let pre := if urgent then "URGENT: " else ""
  let label := match customer with
    | some c => c.name ++ (" (id=") ++ toString c.id ++ (")")
    | none => "customer"
  (pre ++ ("Support response for ") ++ label ++ (": ") ++ issue ++ (".") ++ ctx.1, ctx.2)

/-- Source `ensure_ticket`: delegate to the data agent's `create_ticket`, return
the created record (possibly absent on error). -/
def ensure_ticket (st : Store) (log : List A2AEvent) (cid : Int)
    (issue : String) (priority : String) :
    Option Ticket × Store × List A2AEvent :=
  let r := DataAgent.create_ticket st log agentName cid issue priority
  (r.1.result, r.2.1, r.2.2)

/-- One line of the history summary: `[created_at] issue (status, priority)`. -/
def summaryLine (t : Ticket) : String :=
  ("[") ++ t.created_at ++ ("] ") ++ t.issue ++ (" (") ++ t.status ++ (", ") ++ t.priority ++ (")")

/-- Source `summarize_history`: `No ticket history yet.` on error or empty
history, otherwise the semicolon-joined per-ticket lines. -/
def summarize_history (st : Store) (log : List A2AEvent) (cid : Int) :
    String × List A2AEvent :=
  let h := DataAgent.history st log agentName cid
  let empty := match h.1.result with
    | some l => l.isEmpty
    | none => true
  if optStrTruthy h.1.error || empty then ("No ticket history yet.", h.2)
  else (pyJoin ("; ") ((h.1.result.getD []).map summaryLine), h.2)

end Support

/-! ## Router (`src/agents/router_agent.py`) -/

namespace Router

/-- Python `\s` characters (ASCII range). -/
def isPySpace (c : Char) : Bool :=
  c == ' ' || c == '\t' || c == '\n' || c == '\x0d' || c == '\x0b' || c == '\x0c'

/-- Python `\w` characters (ASCII scope of the queries this system sees). -/
def isWordChar (c : Char) : Bool := c.isAlphanum || c == '_'

/-- Longest run of characters satisfying `p`, plus the remainder. -/
def takeRun (p : Char → Bool) : List Char → List Char × List Char
  | [] => ([], [])
  | c :: cs =>
    if p c then
      let r := takeRun p cs
      (c :: r.1, r.2)
    else ([], c :: cs)

/-- Numeric value of a digit run. -/
def digitsVal (ds : List Char) : Nat :=
  ds.foldl (fun acc c => acc * 10 + (c.toNat - 48)) 0

/-- After a matched keyword: `\s*(\d+)` — skip whitespace, require at
least one digit, capture the digit run. -/
def matchNumberAfterKey (rest : List Char) : Option Nat :=
  let afterSpaces := (takeRun isPySpace rest).2
  let ds := (takeRun (fun c => c.isDigit) afterSpaces).1
  if ds.isEmpty then none else some (digitsVal ds)

/-- Leftmost-match scan for `(?:id|customer)\s*(\d+)` over the lowercased
query (the two alternatives start with different characters, so trying
`id` then `customer` at each position is the regex's backtracking). -/
def parse_customer_id_scan : List Char → Option Nat
  | [] => none
  | c :: cs =>
    if isPrefixOfCL (("id").data) (c :: cs) then
      match matchNumberAfterKey ((c :: cs).drop 2) with
      | some n => some n
      | none => parse_customer_id_scan cs
    else if isPrefixOfCL (("customer").data) (c :: cs) then
      match matchNumberAfterKey ((c :: cs).drop 8) with
      | some n => some n
      | none => parse_customer_id_scan cs
    else parse_customer_id_scan cs

/-- Source `_parse_customer_id`: `re.search` of `(?:id|customer)\s*(\d+)` on the
lowercased query. -/
def parse_customer_id (query : String) : Option Nat :=
  parse_customer_id_scan (pyLower query).data

/-- Characters of the local part of the email pattern: `[\w\.\-]`. -/
def isEmailLocalChar (c : Char) : Bool := isWordChar c || c == '.' || c == '-'

/-- Characters of a domain label of the email pattern: `[\w\-]`. -/
def isEmailDomainChar (c : Char) : Bool := isWordChar c || c == '-'

/-- Try the pattern `[\w\.\-]+@[\w\-]+\.[\w\-]+` anchored at this
position.  Each character class excludes the following delimiter, so the
greedy runs are maximal and no backtracking inside a run can succeed. -/
def matchEmailAt (s : List Char) : Option (List Char) :=
  let locPart := takeRun isEmailLocalChar s
  if locPart.1.isEmpty then none
  else
    match locPart.2 with
    | '@' :: rest2 =>
      let dom1 := takeRun isEmailDomainChar rest2
      if dom1.1.isEmpty then none
      else
        match dom1.2 with
        | '.' :: rest4 =>
          let dom2 := takeRun isEmailDomainChar rest4
          if dom2.1.isEmpty then none
          else some (locPart.1 ++ '@' :: dom1.1 ++ '.' :: dom2.1)
        | _ => none
    | _ => none

/-- Leftmost-match scan of the email pattern. -/
def parse_email_scan : List Char → Option (List Char)
  | [] => none
  | c :: cs =>
    match matchEmailAt (c :: cs) with
    | some m => some m
    | none => parse_email_scan cs

/-- Source `_parse_email`: `re.search` of the email pattern on the raw query. -/
def parse_email (query : String) : Option String :=
  (parse_email_scan query.data).map fun l => ⟨l⟩

/-- The scenarios `handle` can dispatch to. -/
inductive Scenario where
  | cancelBilling
  | multiIntentUpdateEmail
  | escalation
  | highPriorityReport
  | activeWithOpenTickets
  | upgrade
  | getCustomer
  | generic
deriving DecidableEq, Repr

/-- The keyword dispatch of `handle`, on the already-lowercased text: the
`if`/`elif` chain of `router_agent.py` lines 46-61, first match wins. -/
def classify (normalized : String) : Scenario :=
  if inStr ("cancel my subscription") normalized && inStr ("billing") normalized then
    .cancelBilling
  else if inStr ("update my email") normalized && inStr ("history") normalized then
    .multiIntentUpdateEmail
  else if inStr ("charged twice") normalized || inStr ("refund") normalized then
    .escalation
  else if inStr ("high-priority tickets") normalized then
    .highPriorityReport
  else if inStr ("open tickets") normalized && inStr ("active customers") normalized then
    .activeWithOpenTickets
  else if inStr ("upgrade") normalized || inStr ("upgrad") normalized then
    .upgrade
  else if inStr ("get customer information") normalized || inStr ("customer information") normalized then
    .getCustomer
  else .generic

/-- The classification rule as the spec and claim C1 state it: first match
over the case-folded text in the fixed order (a)-(g) — multi-intent,
billing escalation, high-priority report, active-with-open-tickets,
upgrade, lookup, generic.  Written from the claim's words, to be compared
with `classify` above. -/
def claimClassify (normalized : String) : Scenario :=
  if inStr ("update my email") normalized && inStr ("history") normalized then
    .multiIntentUpdateEmail
  else if inStr ("charged twice") normalized || inStr ("refund") normalized then
    .escalation
  else if inStr ("high-priority tickets") normalized then
    .highPriorityReport
  else if inStr ("open tickets") normalized && inStr ("active customers") normalized then
    .activeWithOpenTickets
  else if inStr ("upgrade") normalized || inStr ("upgrad") normalized then
    .upgrade
  else if inStr ("customer information") normalized then
    .getCustomer
  else .generic

/-- Source `_log_step`: the Router records a hop it issues itself. -/
def log_step (log : List A2AEvent) (receiver : String) (action : String)
    (args : List (String × ArgVal)) : List A2AEvent :=
  log ++ [⟨"Router", receiver, action, args⟩]

/-- Source `_get_customer` (scenario 1, lookup). -/
def get_customer (st : Store) (log : List A2AEvent) (cid : Int) :
    String × Store × List A2AEvent :=
  let log1 := log_step log ("CustomerData") ("scenario1.route_to_data")
    [(("customer_id"), .aint cid)]
  let r := DataAgent.fetch_customer st log1 ("Router") cid
  if optStrTruthy r.1.error || r.1.result.isNone then
    ("Customer not found.", st, r.2)
  else
    let log3 := log_step r.2 ("Support") ("scenario1.route_to_support")
      [(("customer_id"), .aint cid)]
    (("Customer ") ++ toString cid ++ (": ") ++
      (match r.1.result with
        | some c => customerRepr c
        | none => "None"), st, log3)

/-- Source `_upgrade`. -/
def upgrade (st : Store) (log : List A2AEvent) (cid : Int) :
    String × Store × List A2AEvent :=
  let info := DataAgent.fetch_customer st log ("Router") cid
  let log2 := log_step info.2 ("Support") ("scenario1.handle_support")
    [(("issue"), .astr ("Upgrade request"))]
  let r := Support.handle_support st log2 info.1.result ("Upgrade request") false false
  (r.1, st, r.2)

/-- The per-customer loop of `_active_with_open_tickets`: history per
customer, keep tickets whose status is not `resolved`. -/
def openTicketsLoop (st : Store) (log : List A2AEvent) :
    List Customer → List Ticket × List A2AEvent
  | [] => ([], log)
  | c :: rest =>
    let h := DataAgent.history st log ("Router") c.id
    let these := (h.1.result.getD []).filter (fun t => !(t.status == "resolved"))
    let more := openTicketsLoop st h.2 rest
    (these ++ more.1, more.2)

/-- One line of the open-tickets report. -/
def openTicketLine (t : Ticket) : String :=
  ("customer_id=") ++ toString t.customer_id ++ (", ticket_id=") ++ toString t.id ++
    (", issue=") ++ t.issue ++ (", priority=") ++ t.priority ++ (", status=") ++ t.status

/-- Source `_active_with_open_tickets`. -/
def active_with_open_tickets (st : Store) (log : List A2AEvent) :
    String × Store × List A2AEvent :=
  let lc := DataAgent.list_customers st log ("Router") (some ("active")) 50
  let loopOut := openTicketsLoop st lc.2 (lc.1.result.getD [])
  if loopOut.1.isEmpty then ("No open tickets for active customers.", st, loopOut.2)
  else (pyJoin ("\n") (loopOut.1.map openTicketLine), st, loopOut.2)

/-- Source `_escalation` (scenario 2). -/
def escalation (st : Store) (log : List A2AEvent) (cid : Int) :
    String × Store × List A2AEvent :=
  let info := DataAgent.fetch_customer st log ("Router") cid
  let log2 := log_step info.2 ("Support") ("scenario2.negotiate")
    [(("issue"), .astr ("Billing refund"))]
  let et := Support.ensure_ticket st log2 cid ("Billing refund request (duplicate charge)") ("high")
  let r := Support.handle_support et.2.1 et.2.2 info.1.result ("Billing refund") true true
  (r.1 ++ (" Ticket created: ") ++ optTicketStr et.1, et.2.1, r.2)

/-- Source `_multi_intent_update_email` (scenario 5).  The update task is created
before the history task, so its hop is recorded first; both results are
awaited (via `asyncio.gather`) before the response is assembled. -/
def multi_intent_update_email (st : Store) (log : List A2AEvent) (cid : Int)
    (new_email : Option String) : String × Store × List A2AEvent :=
  let log1 := match new_email with
    | some e => log_step log ("CustomerData") ("scenario5.update_customer")
        [(("customer_id"), .aint cid), (("data"), .adict [(("email"), e)])]
    | none => log
  let log2 := log_step log1 ("CustomerData") ("scenario5.history")
    [(("customer_id"), .aint cid)]
  let log3 := log_step log2 ("Support") ("scenario5.summarize_history")
    [(("customer_id"), .aint cid)]
  match new_email with
  | some e =>
    let up := DataAgent.update_customer st log3 ("Router") cid [(("email"), e)]
    let _hist := DataAgent.history up.2.1 up.2.2 ("Router") cid
    let email_val := match up.1.result with
      | some u => u.email
      | none => "unchanged"
    let summ := Support.summarize_history up.2.1 _hist.2 cid
    (("Email updated to ") ++ email_val ++ (". History: ") ++ summ.1, up.2.1, summ.2)
  | none =>
    let _hist := DataAgent.history st log3 ("Router") cid
    let summ := Support.summarize_history st _hist.2 cid
    (("Email updated to ") ++ ("unchanged") ++ (". History: ") ++ summ.1, st, summ.2)

/-- First-occurrence deduplication, `list(dict.fromkeys(...))`. -/
def pyDedupAux (seen : List Int) : List Int → List Int
  | [] => []
  | x :: xs => if seen.contains x then pyDedupAux seen xs else x :: pyDedupAux (x :: seen) xs

/-- Source `list(dict.fromkeys(l))`: preserve order, remove duplicates. -/
def pyDedup (l : List Int) : List Int := pyDedupAux [] l

/-- One line of the high-priority report. -/
def highPriorityLine (t : Ticket) : String :=
  ("Ticket ") ++ toString t.id ++ (" for customer ") ++ toString t.customer_id ++
    (": ") ++ t.issue ++ (" (") ++ t.status ++ (")")

/-- The premium-id selection rule of `_high_priority_report`. -/
def premiumIds (customers : List Customer) : List Int :=
  pyDedup ((customers.filter (fun c => c.id == 12345 || c.status == "vip")).map (fun c => c.id))

/-- Source `_high_priority_report` (scenario 3). -/
def high_priority_report (st : Store) (log : List A2AEvent) :
    String × Store × List A2AEvent :=
  let log1 := log_step log ("CustomerData") ("scenario3.list_customers")
    [(("status"), .astr ("active")), (("limit"), .aint 50)]
  let lc := DataAgent.list_customers st log1 ("Router") (some ("active")) 50
  let premium_ids := premiumIds (lc.1.result.getD [])
  if premium_ids.isEmpty then ("No high-priority tickets found.", st, lc.2)
  else
    let log3 := log_step lc.2 ("CustomerData") ("scenario3.high_priority_tickets")
      [(("customer_ids"), .aintList premium_ids)]
    let hp := DataAgent.high_priority_tickets st log3 premium_ids
    if hp.1.isEmpty then ("No high-priority tickets found.", st, hp.2)
    else (pyJoin ("\n") (hp.1.map highPriorityLine), st, hp.2)

/-- Source `_cancel_with_billing_issue` (scenario 2 variant). -/
def cancel_with_billing_issue (st : Store) (log : List A2AEvent) (cid : Int) :
    String × Store × List A2AEvent :=
  let issue := "Cancel subscription with billing issues"
  let log1 := log_step log ("Support") ("scenario2.can_you_handle") [(("issue"), .astr issue)]
  let log2 := log1 ++ [⟨"Support", "Router", "scenario2.need_context",
    [(("context"), .astr ("billing history"))]⟩]
  let h := DataAgent.history st log2 ("Router") cid
  let history_items := h.1.result.getD []
  let context_summary :=
    if history_items.isEmpty then "No prior billing tickets."
    else pyJoin ("; ") (history_items.map fun t =>
      t.issue ++ (" (") ++ t.status ++ (", ") ++ t.priority ++ (")"))
  let r := Support.handle_support st h.2 none issue true false
  (r.1 ++ (" Context: ") ++ context_summary, st, r.2)

/-- Source `_fallback`. -/
def fallback (st : Store) (log : List A2AEvent) (cid : Int) :
    String × Store × List A2AEvent :=
  let info := DataAgent.fetch_customer st log ("Router") cid
  let log2 := log_step info.2 ("Support") ("scenario_generic.handle_support")
    [(("issue"), .astr ("General inquiry"))]
  let r := Support.handle_support st log2 info.1.result ("General inquiry") false false
  (r.1, st, r.2)

/-- What one `handle` call returns and leaves behind: the response, the
dumped log text, the store after the call, the instance log after the
call. -/
structure HandleResult where
  response : String
  logText : String
  store : Store
  events : List A2AEvent
deriving DecidableEq, Repr

/-- Source `handle`: clear the instance log, lowercase the query, extract the
customer id (`or 1` under Python truthiness), dispatch on the keyword
rules, return the response with the full dump. -/
def handle (st : Store) (_log0 : List A2AEvent) (query : String) : HandleResult :=
  let log : List A2AEvent := []
  let normalized := pyLower query
  let customer_id : Int :=
    match parse_customer_id query with
    | some n => if n == 0 then 1 else (n : Int)
    | none => 1
  let out :=
    match classify normalized with
    | .cancelBilling => cancel_with_billing_issue st log customer_id
    | .multiIntentUpdateEmail => multi_intent_update_email st log customer_id (parse_email query)
    | .escalation => escalation st log customer_id
    | .highPriorityReport => high_priority_report st log
    | .activeWithOpenTickets => active_with_open_tickets st log
    | .upgrade => upgrade st log customer_id
    | .getCustomer => get_customer st log customer_id
    | .generic => fallback st log customer_id
  ⟨out.1, dumpLog out.2.2, out.2.1, out.2.2⟩

end Router

/-! ## Sequential calls on one Router instance -/

namespace Router

/-- Run `handle` over a list of queries on one instance, threading the
store and the instance log, collecting `(response, log dump)` pairs. -/
def runSeq (st : Store) (log : List A2AEvent) :
    List String → List (String × String) × Store × List A2AEvent
  | [] => ([], st, log)
  | q :: qs =>
    let r := handle st log q
    let rest := runSeq r.store r.events qs
    ((r.response, r.logText) :: rest.1, rest.2)

/-- The store an initial store evolves to after handling the queries. -/
def runStore (st : Store) : List String → Store
  | [] => st
  | q :: qs => runStore (handle st [] q).store qs

end Router

/-! ## A2A transport client (`src/a2a/client.py`) -/

namespace A2AClient

/-- The parsed JSON-RPC response envelope: an optional error object and an
optional result object. -/
structure RpcResponse where
  error : Option ArgVal := none
  result : Option (List (String × ArgVal)) := none
deriving DecidableEq, Repr

/-- What a `send_message` call does after the POST: raise on HTTP status,
raise on an error member, or return the unwrapped message. -/
inductive SendOutcome where
  | transportError (status : Int)
  | remoteAgentError (err : ArgVal)
  | ok (message : Option ArgVal)
deriving DecidableEq, Repr

/-- Source `send_message` response handling: `raise_for_status()` fails on any
non-2xx status; an `error` member raises with that object; otherwise the
value is `data.get("result", \x7b\x7d).get("message")`. -/
def send_message (status : Int) (resp : RpcResponse) : SendOutcome :=
  if status < 200 ∨ 300 ≤ status then .transportError status
  else
    match resp.error with
    | some e => .remoteAgentError e
    | none => .ok ((resp.result.getD []).lookup ("message"))

/-- Whether the call raised. -/
def isFailure : SendOutcome → Bool
  | .transportError _ => true
  | .remoteAgentError _ => true
  | .ok _ => false

/-- Outcome of `wait_until_ready`, counting descriptor fetches made. -/
inductive WaitOutcome (E : Type) where
  | ready (attemptsMade : Nat)
  | raisedLast (e : E) (attemptsMade : Nat)
  | normalReturn (attemptsMade : Nat)
deriving DecidableEq, Repr

/-- The retry loop of `wait_until_ready`: the `k`-th fetch is
`fetch k`; return on first success, remember the last failure, after the
loop re-raise it when one exists. -/
def wait_until_ready_loop {E : Type} (fetch : Nat → Except E Unit) :
    Nat → Nat → Option E → WaitOutcome E
  | 0, made, last =>
    match last with
    | some e => .raisedLast e made
    | none => .normalReturn made
  | n + 1, made, _last =>
    match fetch made with
    | .ok _ => .ready (made + 1)
    | .error e => wait_until_ready_loop fetch n (made + 1) (some e)

/-- Source `wait_until_ready(attempts=...)` with the fetch outcomes abstracted as
a function of the attempt index. -/
def wait_until_ready {E : Type} (fetch : Nat → Except E Unit) (attempts : Nat) :
    WaitOutcome E :=
  wait_until_ready_loop fetch attempts 0 none

end A2AClient

/-- All customer ids in the store are positive — the invariant the
`INTEGER PRIMARY KEY` customers table maintains. -/
def storeIdsPositive (st : Store) : Bool :=
  st.customers.all (fun c => decide (0 < c.id))

/-! ## Concrete sample data (used only to exhibit witnesses) -/

/-- A one-customer store. -/
def sampleStore : Store :=
  ⟨[⟨1, ("Alice"), ("alice@example.com"), ("555-0100"), ("active"), ("2024-01-01"), ("2024-01-01")⟩],
    [⟨10, 1, ("Duplicate charge"), ("open"), ("high"), ("2024-02-02")⟩],
    11, ("2024-03-03")⟩

/-- A store holding the designated VIP id 12345 as an active customer
with one high-priority ticket, plus a plain active customer. -/
def vipStore : Store :=
  ⟨[⟨12345, ("Vera"), ("vera@example.com"), ("555-0101"), ("active"), ("2024-01-05"), ("2024-01-05")⟩,
    ⟨4, ("Drew"), ("drew@example.com"), ("555-0102"), ("active"), ("2024-01-06"), ("2024-01-06")⟩],
    [⟨20, 12345, ("Outage"), ("open"), ("high"), ("2024-02-07")⟩,
     ⟨21, 4, ("Question"), ("open"), ("low"), ("2024-02-08")⟩],
    22, ("2024-03-09")⟩

/-! ## Theorems: string helper lemmas -/

theorem isPrefixOfCL_append (p b : List Char) : isPrefixOfCL p (p ++ b) = true := by
  induction p with
  | nil => rfl
  | cons c cs ih => simp [isPrefixOfCL, ih]

theorem containsSub_cons_of (p : List Char) (c : Char) (s : List Char)
    (h : containsSub p s = true) : containsSub p (c :: s) = true := by
  simp [containsSub, h]

theorem containsSub_of_prefix (p s : List Char)
    (h : isPrefixOfCL p s = true) : containsSub p s = true := by
  cases s with
  | nil => simpa [containsSub] using h
  | cons c cs => simp [containsSub, h]

/-- A pattern occurs in any list that carries it as a contiguous segment. -/
theorem containsSub_segment (a p b : List Char) :
    containsSub p (a ++ p ++ b) = true := by
  induction a with
  | nil => exact containsSub_of_prefix p (p ++ b) (isPrefixOfCL_append p b)
  | cons c cs ih => simpa using containsSub_cons_of p c (cs ++ p ++ b) ih

theorem containsSub_of_prefix_append (a p s : List Char)
    (h : isPrefixOfCL (a ++ p) s = true) : containsSub p s = true := by
  induction a generalizing s with
  | nil => exact containsSub_of_prefix p s (by simpa using h)
  | cons d ds ih =>
    cases s with
    | nil => simp [isPrefixOfCL] at h
    | cons c cs =>
      simp only [List.cons_append, isPrefixOfCL, Bool.and_eq_true] at h
      exact containsSub_cons_of p c cs (ih cs h.2)

/-- Dropping a prefix of the pattern preserves occurrence. -/
theorem containsSub_of_append_left (a p : List Char) (s : List Char)
    (h : containsSub (a ++ p) s = true) : containsSub p s = true := by
  induction s with
  | nil =>
    have : isPrefixOfCL (a ++ p) [] = true := by simpa [containsSub] using h
    exact containsSub_of_prefix_append a p [] this
  | cons c cs ih =>
    simp only [containsSub, Bool.or_eq_true] at h
    rcases h with h | h
    · exact containsSub_of_prefix_append a p (c :: cs) h
    · exact containsSub_cons_of p c cs (ih h)

/-! ## Transport client claims -/

/-- C10: `wait_until_ready` with `attempts=0` runs the loop body zero
times, leaves `last_error` unset, and so returns normally having made no
descriptor fetch — whatever the fetch outcomes would have been. -/
theorem c10_wait_until_ready_zero_attempts {E : Type} (fetch : Nat → Except E Unit) :
    A2AClient.wait_until_ready fetch 0 = A2AClient.WaitOutcome.normalReturn 0 := rfl

theorem wait_until_ready_loop_ready {E : Type} (fetch : Nat → Except E Unit) :
    ∀ (n k made : Nat) (last : Option E),
      k < n →
      (∀ i, i < k → ∃ er, fetch (made + i) = Except.error er) →
      fetch (made + k) = Except.ok () →
      A2AClient.wait_until_ready_loop fetch n made last =
        A2AClient.WaitOutcome.ready (made + k + 1) := by
  intro n
  induction n with
  | zero => intro k made last hk _ _; exact absurd hk (Nat.not_lt_zero k)
  | succ n ih =>
    intro k made last hk hfail hok
    cases k with
    | zero =>
      have h0 : fetch made = Except.ok () := by simpa using hok
      simp [A2AClient.wait_until_ready_loop, h0]
    | succ k' =>
      obtain ⟨er, her⟩ := hfail 0 (Nat.succ_pos k')
      have her' : fetch made = Except.error er := by simpa using her
      have step := ih k' (made + 1) (some er) (by omega)
        (fun i hi => by
          obtain ⟨e2, he2⟩ := hfail (i + 1) (by omega)
          exact ⟨e2, by rw [show made + 1 + i = made + (i + 1) by omega]; exact he2⟩)
        (by rw [show made + 1 + k' = made + (k' + 1) by omega]; exact hok)
      simp only [A2AClient.wait_until_ready_loop, her']
      rw [show made + (k' + 1) + 1 = made + 1 + k' + 1 by omega]
      exact step

/-- C8: `wait_until_ready` returns normally on the first successful
descriptor fetch; against an always-failing endpoint with `attempts=3` it
makes exactly 3 fetches and raises the failure of the last (third)
attempt. -/
theorem c8_wait_until_ready {E : Type} :
    (∀ e : Nat → E,
      A2AClient.wait_until_ready (fun i => Except.error (e i)) 3 =
        A2AClient.WaitOutcome.raisedLast (e 2) 3)
  ∧ (∀ (fetch : Nat → Except E Unit) (attempts k : Nat),
      k < attempts →
      (∀ i, i < k → ∃ er, fetch i = Except.error er) →
      fetch k = Except.ok () →
      A2AClient.wait_until_ready fetch attempts =
        A2AClient.WaitOutcome.ready (k + 1)) := by
  constructor
  · intro e; rfl
  · intro fetch attempts k hk hfail hok
    have := wait_until_ready_loop_ready fetch attempts k 0 none hk
      (fun i hi => by simpa using hfail i hi) (by simpa using hok)
    simpa [A2AClient.wait_until_ready] using this

theorem c8_wait_until_ready_witness :
    1 < 2 ∧
    A2AClient.wait_until_ready
      (fun i => if i == 0 then Except.error 7 else Except.ok ()) 2 =
      A2AClient.WaitOutcome.ready 2 :=
  ⟨by decide,
    (c8_wait_until_ready (E := Nat)).2
      (fun i => if i == 0 then Except.error 7 else Except.ok ()) 2 1 (by decide)
      (fun i hi => ⟨7, by
        have hi0 : i = 0 := by omega
        subst hi0; rfl⟩)
      rfl⟩

/-- C7: `send_message` raises `TransportError` exactly on non-2xx HTTP
status; given 2xx, it raises `RemoteAgentError` carrying the envelope's
error object exactly when one is present; otherwise it returns
`data.get("result", ...).get("message")` — so it raises iff the status is
non-2xx or the envelope carries an error object. -/
theorem c7_send_message (status : Int) (resp : A2AClient.RpcResponse) :
    ((status < 200 ∨ 300 ≤ status) →
      A2AClient.send_message status resp = A2AClient.SendOutcome.transportError status)
  ∧ (∀ e, 200 ≤ status → status < 300 → resp.error = some e →
      A2AClient.send_message status resp = A2AClient.SendOutcome.remoteAgentError e)
  ∧ (200 ≤ status → status < 300 → resp.error = none →
      A2AClient.send_message status resp =
        A2AClient.SendOutcome.ok ((resp.result.getD []).lookup ("message")))
  ∧ (A2AClient.isFailure (A2AClient.send_message status resp) = true ↔
      (status < 200 ∨ 300 ≤ status ∨ resp.error.isSome = true)) := by
  by_cases h : status < 200 ∨ 300 ≤ status
  · refine ⟨fun _ => by simp [A2AClient.send_message, h], ?_, ?_, ?_⟩
    · intro e h1 h2 _
      rcases h with h | h <;> omega
    · intro h1 h2 _
      rcases h with h | h <;> omega
    · simp only [A2AClient.send_message, h, if_true, A2AClient.isFailure]
      tauto
  · cases he : resp.error with
    | some e =>
      refine ⟨fun hc => absurd hc h, fun e' _ _ heq => ?_, fun _ _ heq => ?_, ?_⟩
      · cases heq
        simp [A2AClient.send_message, h, he]
      · cases heq
      · simp [A2AClient.send_message, h, he, A2AClient.isFailure]
    | none =>
      refine ⟨fun hc => absurd hc h, fun e' _ _ heq => ?_, fun _ _ _ => ?_, ?_⟩
      · cases heq
      · simp [A2AClient.send_message, h, he]
      · simp [A2AClient.send_message, h, he, A2AClient.isFailure]

theorem c7_send_message_witness :
    ((404 : Int) < 200 ∨ (300 : Int) ≤ 404) ∧
    A2AClient.send_message 404 ⟨none, none⟩ =
      A2AClient.SendOutcome.transportError 404 :=
  ⟨by omega, (c7_send_message 404 ⟨none, none⟩).1 (by omega)⟩

/-! ## Data delegate claims -/

/-- What the bulk fetch computes: the per-id keeps concatenated in
input-id order, alongside one history hop per id. -/
theorem high_priority_tickets_eq (st : Store) (log : List A2AEvent) (ids : List Int) :
    (DataAgent.high_priority_tickets st log ids).1 =
      (ids.map (fun cid =>
        match (MCP.get_customer_history st cid).result with
        | some l => l.filter (fun t => t.priority == "high")
        | none => [])).flatten
  ∧ (DataAgent.high_priority_tickets st log ids).2 =
      log ++ ids.map (fun cid =>
        (⟨"Router", DataAgent.agentName, "get_customer_history",
          [(("customer_id"), ArgVal.aint cid)]⟩ : A2AEvent)) := by
  induction ids generalizing log with
  | nil => simp [DataAgent.high_priority_tickets]
  | cons cid rest ih =>
    obtain ⟨ih1, ih2⟩ := ih (log ++ [⟨"Router", DataAgent.agentName,
      "get_customer_history", [(("customer_id"), ArgVal.aint cid)]⟩])
    constructor
    · show (DataAgent.high_priority_tickets st log (cid :: rest)).1 = _
      simp only [DataAgent.high_priority_tickets, DataAgent.history, List.map_cons, List.flatten]
      rw [ih1]
      cases hr : (MCP.get_customer_history st cid).result with
      | none => simp
      | some l => cases l <;> simp
    · show (DataAgent.high_priority_tickets st log (cid :: rest)).2 = _
      simp only [DataAgent.high_priority_tickets, DataAgent.history]
      rw [ih2]
      simp

/-- C6: the bulk `high_priority_tickets` fetches every id's history (one
hop per id, in input order), keeps exactly the entries whose priority is
`high`, concatenates the keeps in input-id order, and is a total function:
ids whose history fetch errors or returns an empty result contribute
nothing and raise nothing. -/
theorem c6_high_priority_tickets (st : Store) (log : List A2AEvent) (ids : List Int) :
    (DataAgent.high_priority_tickets st log ids).1 =
      (ids.map (fun cid =>
        match (MCP.get_customer_history st cid).result with
        | some l => l.filter (fun t => t.priority == "high")
        | none => [])).flatten
  ∧ (DataAgent.high_priority_tickets st log ids).2 =
      log ++ ids.map (fun cid =>
        (⟨"Router", DataAgent.agentName, "get_customer_history",
          [(("customer_id"), ArgVal.aint cid)]⟩ : A2AEvent)) :=
  high_priority_tickets_eq st log ids

/-! ## Router claims -/

/-- Outside the cancel-with-billing rule, the code's dispatch agrees with
the claimed priority order (a)-(g). -/
theorem classify_agrees_off_cancel (s : String)
    (h : (inStr ("cancel my subscription") s && inStr ("billing") s) = false) :
    Router.classify s = Router.claimClassify s := by
  have hg : (inStr ("get customer information") s || inStr ("customer information") s)
      = inStr ("customer information") s := by
    cases hgc : inStr ("get customer information") s
    · simp
    · have hdecomp : ("get customer information").data
          = ("get ").data ++ ("customer information").data := by decide
      have hlong : containsSub (("get ").data ++ ("customer information").data) s.data
          = true := by
        rw [← hdecomp]; exact hgc
      have hc : inStr ("customer information") s = true :=
        containsSub_of_append_left _ _ _ hlong
      simp [hc]
  unfold Router.classify Router.claimClassify
  rw [hg, h]
  simp

/-- C1 as stated is false: the `handle` chain tests "cancel my
subscription" AND "billing" before every rule of the claimed order, so an
input that also contains "refund" is not routed to the billing escalation
the claim's rule (b) demands. -/
theorem c1_router_priority_counterexample :
    Router.classify (pyLower ("Cancel my subscription billing refund"))
      = Router.Scenario.cancelBilling
  ∧ Router.claimClassify (pyLower ("Cancel my subscription billing refund"))
      = Router.Scenario.escalation
  ∧ Router.Scenario.cancelBilling ≠ Router.Scenario.escalation :=
  ⟨by decide, by decide, by decide⟩

/-- C1 (amended): `handle` first tests a rule the claim omits — text
containing both "cancel my subscription" and "billing" goes to the
cancel-with-billing scenario; for every other input the dispatch is
exactly the claimed first-match order (a)-(g) over the case-folded text,
hence total, deterministic, and priority-respecting. -/
theorem c1_router_priority_amended (q : String)
    (h : (inStr ("cancel my subscription") (pyLower q) &&
          inStr ("billing") (pyLower q)) = false) :
    Router.classify (pyLower q) = Router.claimClassify (pyLower q) :=
  classify_agrees_off_cancel (pyLower q) h

/-- Python `in` holds for any contiguous segment (string level). -/
theorem inStr_segment_str (a p b : String) : inStr p (a ++ p ++ b) = true := by
  unfold inStr
  rw [String.data_append, String.data_append]
  exact containsSub_segment a.data p.data b.data

theorem inStr_eq_segment (p s a b : String) (h : s = a ++ p ++ b) : inStr p s = true := by
  rw [h]
  exact inStr_segment_str a p b

/-- C2: in the lookup scenario, a fetch that errors or returns no record
yields exactly `Customer not found.`; otherwise the response is
`Customer <id>: <record repr>` and contains the literal id and the stored
name, email and status. -/
theorem c2_lookup_scenario (st : Store) (log : List A2AEvent) (cid : Int) :
    ((optStrTruthy (MCP.get_customer st cid).error ||
        (MCP.get_customer st cid).result.isNone) = true →
      (Router.get_customer st log cid).1 = "Customer not found.")
  ∧ (∀ c, (optStrTruthy (MCP.get_customer st cid).error ||
        (MCP.get_customer st cid).result.isNone) = false →
      (MCP.get_customer st cid).result = some c →
      (Router.get_customer st log cid).1
          = ("Customer ") ++ toString cid ++ (": ") ++ customerRepr c
      ∧ inStr (toString cid) (Router.get_customer st log cid).1 = true
      ∧ inStr c.name (Router.get_customer st log cid).1 = true
      ∧ inStr c.email (Router.get_customer st log cid).1 = true
      ∧ inStr c.status (Router.get_customer st log cid).1 = true) := by
  constructor
  · intro h
    simp [Router.get_customer, DataAgent.fetch_customer, h]
  · intro c h hc
    rw [Bool.or_eq_false_iff] at h
    have hout : (Router.get_customer st log cid).1
        = ("Customer ") ++ toString cid ++ (": ") ++ customerRepr c := by
      simp [Router.get_customer, DataAgent.fetch_customer, h.1, h.2, hc]
    refine ⟨hout, ?_, ?_, ?_, ?_⟩
    · exact inStr_eq_segment _ _ ("Customer ") ((": ") ++ customerRepr c)
        (by rw [hout]; simp only [String.append_assoc])
    · refine inStr_eq_segment _ _
        (("Customer ") ++ toString cid ++ (": ") ++ ("\x7b\x27id\x27: ") ++
          toString c.id ++ (", \x27name\x27: \x27"))
        (("\x27, \x27email\x27: \x27") ++ c.email ++ ("\x27, \x27phone\x27: \x27") ++
          c.phone ++ ("\x27, \x27status\x27: \x27") ++ c.status ++
          ("\x27, \x27created_at\x27: \x27") ++ c.created_at ++
          ("\x27, \x27updated_at\x27: \x27") ++ c.updated_at ++ ("\x27\x7d")) ?_
      rw [hout]
      unfold customerRepr
      simp only [String.append_assoc]
    · refine inStr_eq_segment _ _
        (("Customer ") ++ toString cid ++ (": ") ++ ("\x7b\x27id\x27: ") ++
          toString c.id ++ (", \x27name\x27: \x27") ++ c.name ++
          ("\x27, \x27email\x27: \x27"))
        (("\x27, \x27phone\x27: \x27") ++ c.phone ++ ("\x27, \x27status\x27: \x27") ++
          c.status ++ ("\x27, \x27created_at\x27: \x27") ++ c.created_at ++
          ("\x27, \x27updated_at\x27: \x27") ++ c.updated_at ++ ("\x27\x7d")) ?_
      rw [hout]
      unfold customerRepr
      simp only [String.append_assoc]
    · refine inStr_eq_segment _ _
        (("Customer ") ++ toString cid ++ (": ") ++ ("\x7b\x27id\x27: ") ++
          toString c.id ++ (", \x27name\x27: \x27") ++ c.name ++
          ("\x27, \x27email\x27: \x27") ++ c.email ++ ("\x27, \x27phone\x27: \x27") ++
          c.phone ++ ("\x27, \x27status\x27: \x27"))
        (("\x27, \x27created_at\x27: \x27") ++ c.created_at ++
          ("\x27, \x27updated_at\x27: \x27") ++ c.updated_at ++ ("\x27\x7d")) ?_
      rw [hout]
      unfold customerRepr
      simp only [String.append_assoc]

theorem c2_lookup_scenario_witness :
    (optStrTruthy (MCP.get_customer sampleStore 1).error ||
      (MCP.get_customer sampleStore 1).result.isNone) = false
  ∧ inStr ("Alice") (Router.get_customer sampleStore [] 1).1 = true
  ∧ inStr ("alice@example.com") (Router.get_customer sampleStore [] 1).1 = true :=
  ⟨by decide,
    ((c2_lookup_scenario sampleStore [] 1).2
      ⟨1, ("Alice"), ("alice@example.com"), ("555-0100"), ("active"),
        ("2024-01-01"), ("2024-01-01")⟩ (by decide) (by decide)).2.2.1,
    ((c2_lookup_scenario sampleStore [] 1).2
      ⟨1, ("Alice"), ("alice@example.com"), ("555-0100"), ("active"),
        ("2024-01-01"), ("2024-01-01")⟩ (by decide) (by decide)).2.2.2.1⟩

/-- C3: the escalation scenario performs, in order: customer fetch,
negotiation event, `create_ticket` with priority `high` titled
`Billing refund request (duplicate charge)`, then a Support reply with
`urgent=True, needs_context=True` (whose own hops follow), and returns
exactly `<support reply> Ticket created: <ticket>`; the store change is
the ticket creation. -/
theorem c3_escalation (st : Store) (log : List A2AEvent) (cid : Int) :
    (Router.escalation st log cid).2.2 =
      log ++ [⟨"Router", ("CustomerData"), ("get_customer"),
                [(("customer_id"), ArgVal.aint cid)]⟩,
              ⟨"Router", ("Support"), ("scenario2.negotiate"),
                [(("issue"), ArgVal.astr ("Billing refund"))]⟩,
              ⟨"Support", ("CustomerData"), ("create_ticket"),
                [(("customer_id"), ArgVal.aint cid),
                 (("issue"), ArgVal.astr ("Billing refund request (duplicate charge)")),
                 (("priority"), ArgVal.astr ("high"))]⟩]
        ++ (match (MCP.get_customer st cid).result with
            | some c =>
              [⟨"Support", ("CustomerData"), ("request_context"),
                 [(("customer_id"), ArgVal.aint c.id)]⟩,
               ⟨"Support", ("CustomerData"), ("get_customer_history"),
                 [(("customer_id"), ArgVal.aint c.id)]⟩]
            | none => [])
  ∧ (Router.escalation st log cid).1 =
      (Support.handle_support
          (MCP.create_ticket st cid ("Billing refund request (duplicate charge)") ("high")).2
          [] (MCP.get_customer st cid).result ("Billing refund") true true).1
        ++ (" Ticket created: ")
        ++ optTicketStr
            (MCP.create_ticket st cid ("Billing refund request (duplicate charge)") ("high")).1.result
  ∧ (Router.escalation st log cid).2.1 =
      (MCP.create_ticket st cid ("Billing refund request (duplicate charge)") ("high")).2 := by
  cases hres : (MCP.get_customer st cid).result with
  | none =>
    refine ⟨?_, ?_, ?_⟩ <;>
      simp [Router.escalation, Router.log_step, DataAgent.fetch_customer,
        Support.ensure_ticket, DataAgent.create_ticket, Support.agentName,
        DataAgent.agentName, Support.handle_support, Support.handle_supportContext,
        DataAgent.history, hres]
  | some c =>
    refine ⟨?_, ?_, ?_⟩ <;>
      simp [Router.escalation, Router.log_step, DataAgent.fetch_customer,
        Support.ensure_ticket, DataAgent.create_ticket, Support.agentName,
        DataAgent.agentName, Support.handle_support, Support.handle_supportContext,
        DataAgent.history, hres]

/-- In the updated customer list, the row found for `cid` carries the new
email. -/
theorem find?_map_updated_email (cid : Int) (e nowv : String) :
    ∀ (cs : List Customer) (u : Customer),
      ((cs.map (fun c => if c.id == cid
          then { [(("email"), e)].foldl MCP.setField c with updated_at := nowv }
          else c)).find? (fun c => c.id == cid)) = some u →
      u.email = e := by
  intro cs
  induction cs with
  | nil => intro u h; simp at h
  | cons c0 rest ih =>
    intro u h
    simp only [List.map_cons] at h
    by_cases hc : (c0.id == cid) = true
    · have hf : (if c0.id == cid
          then { [(("email"), e)].foldl MCP.setField c0 with updated_at := nowv }
          else c0) = { c0 with email := e, updated_at := nowv } := by
        rw [if_pos hc]
        simp [MCP.setField]
      rw [hf] at h
      simp only [List.find?, hc] at h
      injection h with h2
      rw [← h2]
    · have hf : (if c0.id == cid
          then { [(("email"), e)].foldl MCP.setField c0 with updated_at := nowv }
          else c0) = c0 := if_neg hc
      rw [hf] at h
      rw [Bool.not_eq_true] at hc
      simp only [List.find?, hc] at h
      exact ih u h

/-- A successful `update_customer` with `data = (\x7b"email": e\x7d)` returns a
record whose email is the new email (it re-reads the updated row). -/
theorem update_customer_email_eq (st : Store) (cid : Int) (e : String) (u : Customer)
    (h : (MCP.update_customer st cid [(("email"), e)]).1.result = some u) :
    u.email = e := by
  by_cases hv : MCP.validCustomerId cid = true
  · rw [show MCP.update_customer st cid [(("email"), e)]
        = MCP.update_customerApply st cid [(("email"), e)] from by
      simp [MCP.update_customer, hv, MCP.allowedCustomerFields, List.lookup]] at h
    unfold MCP.update_customerApply at h
    by_cases ha : (st.customers.any (fun c => c.id == cid)) = true
    · simp only [ha, Bool.not_true, Bool.false_eq_true, if_false] at h
      unfold MCP.get_customer at h
      simp only [hv, Bool.not_true, Bool.false_eq_true, if_false] at h
      cases hf : ((st.customers.map (fun c => if c.id == cid
          then { [(("email"), e)].foldl MCP.setField c with updated_at := st.now }
          else c)).find? (fun c => c.id == cid)) with
      | none => rw [hf] at h; simp at h
      | some u' =>
        rw [hf] at h
        have h2 : u' = u := by simpa using h
        exact h2 ▸ find?_map_updated_email cid e st.now st.customers u' hf
    · simp [ha] at h
  · simp [MCP.update_customer, hv] at h

/-- The summary text does not depend on the log handed in. -/
theorem summarize_history_fst (st : Store) (l1 l2 : List A2AEvent) (cid : Int) :
    (Support.summarize_history st l1 cid).1 = (Support.summarize_history st l2 cid).1 := by
  unfold Support.summarize_history DataAgent.history
  dsimp only
  split <;> rfl

/-- Source `summarize_history` records exactly one history hop. -/
theorem summarize_history_snd (st : Store) (l : List A2AEvent) (cid : Int) :
    (Support.summarize_history st l cid).2
      = l ++ [⟨Support.agentName, DataAgent.agentName, ("get_customer_history"),
          [(("customer_id"), ArgVal.aint cid)]⟩] := by
  unfold Support.summarize_history DataAgent.history
  dsimp only
  split <;> rfl

/-- C4: in the multi-intent scenario, when an email was parsed and the
update call succeeds, the displayed value equals the new email (the
update returns the re-read row) and is not the string `unchanged` (a
parsed email contains an `@`); both the update and the history hops are
issued within the call, before the response is assembled. -/
theorem c4_multi_intent_update_email (st : Store) (log : List A2AEvent) (cid : Int)
    (e : String) (u : Customer)
    (hok : (MCP.update_customer st cid [(("email"), e)]).1.result = some u) :
    (Router.multi_intent_update_email st log cid (some e)).1
      = ("Email updated to ") ++ e ++ (". History: ")
        ++ (Support.summarize_history (MCP.update_customer st cid [(("email"), e)]).2 [] cid).1
  ∧ (e.data.contains '@' = true → e ≠ "unchanged")
  ∧ (⟨"Router", ("CustomerData"), ("update_customer"),
      [(("customer_id"), ArgVal.aint cid), (("data"), ArgVal.adict [(("email"), e)])]⟩ : A2AEvent)
      ∈ (Router.multi_intent_update_email st log cid (some e)).2.2
  ∧ (⟨"Router", ("CustomerData"), ("get_customer_history"),
      [(("customer_id"), ArgVal.aint cid)]⟩ : A2AEvent)
      ∈ (Router.multi_intent_update_email st log cid (some e)).2.2 := by
  have hemail : u.email = e := update_customer_email_eq st cid e u hok
  refine ⟨?_, ?_, ?_, ?_⟩
  · simp only [Router.multi_intent_update_email, DataAgent.update_customer,
      DataAgent.history, hok, hemail]
    exact congrArg
      (fun z => ("Email updated to ") ++ e ++ (". History: ") ++ z)
      (summarize_history_fst _ _ _ _)
  · intro hat heq
    subst heq
    simp at hat
  · simp [Router.multi_intent_update_email, Router.log_step, DataAgent.update_customer,
      DataAgent.history, summarize_history_snd, DataAgent.agentName, Support.agentName]
  · simp [Router.multi_intent_update_email, Router.log_step, DataAgent.update_customer,
      DataAgent.history, summarize_history_snd, DataAgent.agentName, Support.agentName]

theorem c4_multi_intent_update_email_witness :
    (MCP.update_customer sampleStore 1 [(("email"), ("new@example.com"))]).1.result
      = some ⟨1, ("Alice"), ("new@example.com"), ("555-0100"), ("active"),
          ("2024-01-01"), ("2024-03-03")⟩
  ∧ (Router.multi_intent_update_email sampleStore [] 1 (some ("new@example.com"))).1
      = ("Email updated to ") ++ ("new@example.com") ++ (". History: ")
        ++ (Support.summarize_history
              (MCP.update_customer sampleStore 1 [(("email"), ("new@example.com"))]).2 [] 1).1 :=
  ⟨by decide,
    (c4_multi_intent_update_email sampleStore [] 1 ("new@example.com")
      ⟨1, ("Alice"), ("new@example.com"), ("555-0100"), ("active"),
        ("2024-01-01"), ("2024-03-03")⟩ (by decide)).1⟩

theorem insertDesc_perm (t : Ticket) (l : List Ticket) :
    (MCP.insertDesc t l).Perm (t :: l) := by
  induction l with
  | nil => exact List.Perm.refl _
  | cons u us ih =>
    unfold MCP.insertDesc
    split
    · exact List.Perm.refl _
    · exact (ih.cons u).trans (List.Perm.swap t u us)

theorem orderByCreatedAtDesc_perm (l : List Ticket) :
    (MCP.orderByCreatedAtDesc l).Perm l := by
  induction l with
  | nil => exact List.Perm.refl _
  | cons t ts ih =>
    exact (insertDesc_perm t (MCP.orderByCreatedAtDesc ts)).trans (ih.cons t)

theorem filter_orderBy_eq_nil_iff (p : Ticket → Bool) (l : List Ticket) :
    (MCP.orderByCreatedAtDesc l).filter p = [] ↔ l.filter p = [] := by
  have hperm := (orderByCreatedAtDesc_perm l).filter p
  constructor
  · intro h
    have h2 := hperm.symm
    rw [h] at h2
    exact h2.eq_nil
  · intro h
    rw [h] at hperm
    exact hperm.eq_nil

theorem mem_filter_orderBy (p : Ticket → Bool) (l : List Ticket) (t : Ticket)
    (h : t ∈ (MCP.orderByCreatedAtDesc l).filter p) : t ∈ l ∧ p t = true := by
  have hm := List.mem_filter.mp h
  exact ⟨(orderByCreatedAtDesc_perm l).mem_iff.mp hm.1, hm.2⟩

theorem pyDedupAux_subset (l : List Int) : ∀ (seen : List Int) (a : Int),
    a ∈ Router.pyDedupAux seen l → a ∈ l := by
  induction l with
  | nil => intro seen a h; simp [Router.pyDedupAux] at h
  | cons x xs ih =>
    intro seen a h
    unfold Router.pyDedupAux at h
    split at h
    · exact List.mem_cons_of_mem x (ih seen a h)
    · rcases List.mem_cons.mp h with h1 | h1
      · rw [h1]; exact List.mem_cons_self x xs
      · exact List.mem_cons_of_mem x (ih (x :: seen) a h1)

theorem pyDedup_subset (l : List Int) (a : Int) (h : a ∈ Router.pyDedup l) : a ∈ l :=
  pyDedupAux_subset l [] a h

/-- The active listing always succeeds with the filtered, limited rows. -/
theorem list_active_result (st : Store) :
    (MCP.list_customers st (some ("active")) 50).result
      = some ((st.customers.filter (fun c => c.status == "active")).take 50) := rfl

/-- Every selected premium id is the id of a stored customer, hence
positive in a well-formed store. -/
theorem premiumIds_pos (st : Store) (hwf : storeIdsPositive st = true) :
    ∀ cid ∈ Router.premiumIds
        ((MCP.list_customers st (some ("active")) 50).result.getD []), 0 < cid := by
  intro cid hc
  have hsub := pyDedup_subset _ cid hc
  rcases List.mem_map.mp hsub with ⟨c, hcf, hid⟩
  have hcm := List.mem_of_mem_filter hcf
  rw [list_active_result st] at hcm
  simp only [Option.getD_some] at hcm
  have hcs : c ∈ st.customers := List.mem_of_mem_filter (List.mem_of_mem_take hcm)
  have hp := List.all_eq_true.mp hwf c hcs
  rw [← hid]
  simpa using hp

theorem history_result_pos (st : Store) (cid : Int) (hpos : 0 < cid) :
    (MCP.get_customer_history st cid).result
      = some (MCP.orderByCreatedAtDesc (st.tickets.filter (fun t => t.customer_id == cid))) := by
  simp [MCP.get_customer_history, MCP.validCustomerId, hpos]

theorem highPriorityLine_head (t : Ticket) :
    (Router.highPriorityLine t).data.head? = some 'T' := by
  have hdecomp : (Router.highPriorityLine t).data
      = ("Ticket ").data ++ (toString t.id ++ (" for customer ") ++ toString t.customer_id
          ++ (": ") ++ t.issue ++ (" (") ++ t.status ++ (")")).data := by
    unfold Router.highPriorityLine
    rw [← String.data_append]
    congr 1
  rw [hdecomp]
  rfl

theorem pyJoin_cons_data (sep x : String) (xs : List String) :
    ∃ r, (pyJoin sep (x :: xs)).data = x.data ++ r := by
  cases xs with
  | nil => exact ⟨[], by simp [pyJoin]⟩
  | cons y ys =>
    exact ⟨sep.data ++ (pyJoin sep (y :: ys)).data,
      by simp [pyJoin, String.data_append]⟩

/-- A non-empty formatted report never equals the no-tickets message. -/
theorem pyJoin_report_ne (t : Ticket) (rest : List Ticket) :
    pyJoin ("\n") ((t :: rest).map Router.highPriorityLine)
      ≠ "No high-priority tickets found." := by
  intro h
  obtain ⟨r, hr⟩ := pyJoin_cons_data ("\n") (Router.highPriorityLine t)
    (rest.map Router.highPriorityLine)
  have hdata := congrArg String.data h
  rw [List.map_cons] at hdata
  rw [hr] at hdata
  have hx := highPriorityLine_head t
  cases hxd : (Router.highPriorityLine t).data with
  | nil => rw [hxd] at hx; simp at hx
  | cons c cl =>
    rw [hxd] at hx hdata
    simp only [List.head?_cons, Option.some.injEq] at hx
    have hhead := congrArg List.head? hdata
    simp only [List.cons_append, List.head?_cons] at hhead
    rw [hx] at hhead
    exact absurd hhead (by decide)

/-- C5: the high-priority report returns `No high-priority tickets found.`
iff the premium selection over the listed active customers is empty or no
selected customer owns a ticket of priority `high`; otherwise the response
formats a non-empty list of tickets, all of priority `high`. -/
theorem c5_high_priority_report (st : Store) (log : List A2AEvent)
    (hwf : storeIdsPositive st = true) :
    ((Router.high_priority_report st log).1 = "No high-priority tickets found."
      ↔ (Router.premiumIds ((MCP.list_customers st (some ("active")) 50).result.getD []) = []
        ∨ ∀ cid ∈ Router.premiumIds
              ((MCP.list_customers st (some ("active")) 50).result.getD []),
            ∀ t ∈ st.tickets, t.customer_id = cid → ¬(t.priority = "high")))
  ∧ ((Router.high_priority_report st log).1 ≠ "No high-priority tickets found." →
      ∃ ts : List Ticket, ts ≠ []
        ∧ (Router.high_priority_report st log).1
            = pyJoin ("\n") (ts.map Router.highPriorityLine)
        ∧ ∀ t ∈ ts, t.priority = "high") := by
  have hhp : ∀ (L : List A2AEvent) (ids : List Int),
      (DataAgent.high_priority_tickets st L ids).1
        = (ids.map (fun cid =>
            match (MCP.get_customer_history st cid).result with
            | some l => l.filter (fun t => t.priority == "high")
            | none => [])).flatten :=
    fun L ids => (high_priority_tickets_eq st L ids).1
  have hpos := premiumIds_pos st hwf
  have hkeep : ∀ cid ∈ Router.premiumIds
      ((MCP.list_customers st (some ("active")) 50).result.getD []),
      (match (MCP.get_customer_history st cid).result with
        | some l => l.filter (fun t => t.priority == "high")
        | none => ([] : List Ticket))
      = (MCP.orderByCreatedAtDesc (st.tickets.filter (fun t => t.customer_id == cid))).filter
          (fun t => t.priority == "high") := by
    intro cid hcid
    rw [history_result_pos st cid (hpos cid hcid)]
  have hrep : (Router.high_priority_report st log).1
      = (if (Router.premiumIds
            ((MCP.list_customers st (some ("active")) 50).result.getD [])).isEmpty
        then "No high-priority tickets found."
        else if (((Router.premiumIds
            ((MCP.list_customers st (some ("active")) 50).result.getD [])).map
              (fun cid => match (MCP.get_customer_history st cid).result with
                | some l => l.filter (fun t => t.priority == "high")
                | none => [])).flatten).isEmpty
          then "No high-priority tickets found."
          else pyJoin ("\n") ((((Router.premiumIds
            ((MCP.list_customers st (some ("active")) 50).result.getD [])).map
              (fun cid => match (MCP.get_customer_history st cid).result with
                | some l => l.filter (fun t => t.priority == "high")
                | none => [])).flatten).map Router.highPriorityLine)) := by
    simp only [Router.high_priority_report, DataAgent.list_customers, Router.log_step, hhp]
    split
    · rfl
    · split
      · rfl
      · rfl
  by_cases hPe : Router.premiumIds
      ((MCP.list_customers st (some ("active")) 50).result.getD []) = []
  · have hrepm : (Router.high_priority_report st log).1
        = "No high-priority tickets found." := by
      rw [hrep, hPe]
      rfl
    refine ⟨?_, ?_⟩
    · rw [hrepm]
      exact iff_of_true rfl (Or.inl hPe)
    · rw [hrepm]
      intro hne
      exact absurd rfl hne
  · by_cases hFe : ((Router.premiumIds
        ((MCP.list_customers st (some ("active")) 50).result.getD [])).map
          (fun cid => match (MCP.get_customer_history st cid).result with
            | some l => l.filter (fun t => t.priority == "high")
            | none => [])).flatten = []
    · have hrepm : (Router.high_priority_report st log).1
          = "No high-priority tickets found." := by
        rw [hrep, hFe]
        simp
      refine ⟨?_, ?_⟩
      · rw [hrepm]
        refine iff_of_true rfl (Or.inr ?_)
        intro cid hcid t ht hcust hpri
        rw [List.flatten_eq_nil_iff] at hFe
        have hx := hFe _ (List.mem_map_of_mem _ hcid)
        rw [hkeep cid hcid] at hx
        rw [filter_orderBy_eq_nil_iff] at hx
        rw [List.filter_eq_nil_iff] at hx
        have hmem : t ∈ st.tickets.filter (fun t2 => t2.customer_id == cid) :=
          List.mem_filter.mpr ⟨ht, by simp [hcust]⟩
        exact hx t hmem (by simp [hpri])
      · rw [hrepm]
        intro hne
        exact absurd rfl hne
    · have hrepj : (Router.high_priority_report st log).1
          = pyJoin ("\n") ((((Router.premiumIds
              ((MCP.list_customers st (some ("active")) 50).result.getD [])).map
                (fun cid => match (MCP.get_customer_history st cid).result with
                  | some l => l.filter (fun t => t.priority == "high")
                  | none => [])).flatten).map Router.highPriorityLine) := by
        rw [hrep]
        simp [List.isEmpty_iff, hPe, hFe]
      have hall : ∀ t ∈ ((Router.premiumIds
          ((MCP.list_customers st (some ("active")) 50).result.getD [])).map
            (fun cid => match (MCP.get_customer_history st cid).result with
              | some l => l.filter (fun t => t.priority == "high")
              | none => [])).flatten, t.priority = "high" := by
        intro t ht
        rcases List.mem_flatten.mp ht with ⟨x, hx, htx⟩
        rcases List.mem_map.mp hx with ⟨cid, hcid, hxeq⟩
        rw [← hxeq, hkeep cid hcid] at htx
        have hpt := (mem_filter_orderBy _ _ t htx).2
        simpa using hpt
      refine ⟨?_, ?_⟩
      · rw [hrepj]
        constructor
        · intro hj
          cases hFl : ((Router.premiumIds
              ((MCP.list_customers st (some ("active")) 50).result.getD [])).map
                (fun cid => match (MCP.get_customer_history st cid).result with
                  | some l => l.filter (fun t => t.priority == "high")
                  | none => [])).flatten with
          | nil => exact absurd hFl hFe
          | cons t0 ts0 =>
            rw [hFl] at hj
            exact absurd hj (pyJoin_report_ne t0 ts0)
        · intro hor
          rcases hor with h1 | h2
          · exact absurd h1 hPe
          · exfalso
            apply hFe
            rw [List.flatten_eq_nil_iff]
            intro x hx
            rcases List.mem_map.mp hx with ⟨cid, hcid, hxeq⟩
            rw [← hxeq, hkeep cid hcid]
            rw [filter_orderBy_eq_nil_iff]
            rw [List.filter_eq_nil_iff]
            intro a ha hpa
            have hmem := List.mem_filter.mp ha
            have heq : a.customer_id = cid := by simpa using hmem.2
            exact absurd (by simpa using hpa) (h2 cid hcid a hmem.1 heq)
      · intro _
        exact ⟨_, hFe, hrepj, hall⟩

theorem c5_high_priority_report_witness :
    storeIdsPositive vipStore = true
  ∧ ∃ ts : List Ticket, ts ≠ []
      ∧ (Router.high_priority_report vipStore []).1
          = pyJoin ("\n") (ts.map Router.highPriorityLine)
      ∧ ∀ t ∈ ts, t.priority = "high" :=
  ⟨by decide, (c5_high_priority_report vipStore [] (by decide)).2 (by decide)⟩

/-- Source `handle` ignores the instance log it starts with: it clears it. -/
theorem handle_clears_log (st : Store) (l : List A2AEvent) (q : String) :
    Router.handle st l q = Router.handle st [] q := rfl

/-- C9: over any sequence of sequential `handle` calls on one Router
instance, the dump returned by call `k` renders exactly the events of
call `k` itself (a fresh-log run on the store state reached after the
first `k` calls), in record order — nothing from call `k-1` or earlier
survives, because `handle` clears the trace at its start. -/
theorem c9_trace_roundtrip (st : Store) (log0 : List A2AEvent) (qs : List String)
    (k : Nat) (hk : k < qs.length) :
    ((Router.runSeq st log0 qs).1.getD k ((""), ("")) =
      ((Router.handle (Router.runStore st (qs.take k)) [] (qs.getD k (""))).response,
        pyJoin ("\n")
          (((Router.handle (Router.runStore st (qs.take k)) [] (qs.getD k (""))).events).map
            A2AEvent.format)))
  ∧ (∀ (st2 : Store) (l : List A2AEvent) (q : String),
      Router.handle st2 l q = Router.handle st2 [] q) := by
  refine ⟨?_, fun st2 l q => handle_clears_log st2 l q⟩
  induction qs generalizing st log0 k with
  | nil => exact absurd hk (Nat.not_lt_zero k)
  | cons q qs' ih =>
    cases k with
    | zero =>
      simp only [Router.runSeq, List.getD_cons_zero, List.take_zero, Router.runStore,
        List.getD_cons_zero]
      rfl
    | succ k' =>
      have hk' : k' < qs'.length := Nat.lt_of_succ_lt_succ hk
      simp only [Router.runSeq, List.getD_cons_succ, List.take_succ_cons, Router.runStore]
      exact ih (Router.handle st [] q).store (Router.handle st log0 q).events k' hk'

theorem c9_trace_roundtrip_witness :
    1 < (([("Get customer information for id 1"), ("I want a refund id 1")] : List String)).length
  ∧ ((Router.runSeq sampleStore [⟨("X"), ("Y"), ("Z"), []⟩]
        [("Get customer information for id 1"), ("I want a refund id 1")]).1.getD 1 ((""), ("")) =
      ((Router.handle (Router.runStore sampleStore
          ([("Get customer information for id 1"), ("I want a refund id 1")].take 1)) []
          ([("Get customer information for id 1"), ("I want a refund id 1")].getD 1 (""))).response,
        pyJoin ("\n")
          (((Router.handle (Router.runStore sampleStore
              ([("Get customer information for id 1"), ("I want a refund id 1")].take 1)) []
              ([("Get customer information for id 1"), ("I want a refund id 1")].getD 1 (""))).events).map
            A2AEvent.format))) :=
  ⟨by decide,
    (c9_trace_roundtrip sampleStore [⟨("X"), ("Y"), ("Z"), []⟩]
      [("Get customer information for id 1"), ("I want a refund id 1")] 1 (by decide)).1⟩

theorem c1_router_priority_amended_witness :
    (inStr ("cancel my subscription") (pyLower ("I was charged twice, refund id 2")) &&
      inStr ("billing") (pyLower ("I was charged twice, refund id 2"))) = false
  ∧ Router.classify (pyLower ("I was charged twice, refund id 2"))
      = Router.claimClassify (pyLower ("I was charged twice, refund id 2")) :=
  ⟨by decide, c1_router_priority_amended ("I was charged twice, refund id 2") (by decide)⟩

end CS
